import Mathlib

/-!
Verification of the mssql-mcp-server core: query validator
(`src/database/query_validator.py`), identifier validator
(`src/tools/advanced.py`), connection pool
(`src/database/connection.py`) and the query / write execution engine
(`src/tools/query.py`, `src/tools/advanced.py`).

The embedding models Python strings as `List Char` restricted to ASCII
text (all constants in the source are ASCII); Python's `str.upper`,
`str.lower`, `str.strip` are modelled by their ASCII behaviour.
-/

namespace MssqlMcp

/-- The single-quote character, written via its code point. -/
def squote : Char := Char.ofNat 39

/-- Characters removed by Python `str.strip()` (ASCII whitespace). -/
def pyIsSpace (c : Char) : Bool :=
  c = ' ' || c = '\t' || c = '\n' || c = '\r' || c = '\x0b' || c = '\x0c'

/-- Python `s.strip()` on ASCII text. -/
def pyStrip (s : List Char) : List Char :=
  (((s.dropWhile pyIsSpace).reverse).dropWhile pyIsSpace).reverse

/-- Python `s.upper()` on ASCII text. -/
def pyUpper (s : List Char) : List Char := s.map Char.toUpper

/-- Python `s.lower()` on ASCII text. -/
def pyLower (s : List Char) : List Char := s.map Char.toLower

/-- Python `w in s` substring containment. -/
def containsSub (w : List Char) : List Char → Bool
  | [] => w.isEmpty
  | c :: rest => w.isPrefixOf (c :: rest) || containsSub w rest

/-- Semantics of `re.search(MULTI_STATEMENT_PATTERN, query)` where
`MULTI_STATEMENT_PATTERN` is the regex matching a semicolon whose
lookahead `(?:[^q]*q[^q]*q)*[^q]*$` (q the single-quote character)
demands an even number of single quotes in the rest of the string:
the search succeeds iff some `;` in the string is followed by an even
number of single-quote characters. -/
def multiStatementMatch : List Char → Bool
  | [] => false
  | c :: rest =>
      (c = ';' && rest.count squote % 2 == 0) || multiStatementMatch rest

/-- Regex word character (`\w`): alphanumeric or underscore. -/
def isWordChar (c : Char) : Bool := c.isAlphanum || c = '_'

/-- A position boundary is a word boundary if the neighbouring character
is absent or not a word character. -/
def boundaryOk : Option Char → Bool
  | none => true
  | some c => !(isWordChar c)

/-- Helper for `hasWholeWord`: `prev` is the character immediately before
the current position (none at the start of the string). -/
def hasWholeWordAux (w : List Char) : Option Char → List Char → Bool
  | _, [] => false
  | prev, c :: rest =>
      (boundaryOk prev && w.isPrefixOf (c :: rest)
        && boundaryOk ((c :: rest).drop w.length).head?)
      || hasWholeWordAux w (some c) rest

/-- Semantics of `re.search(r"\b" + w + r"\b", s)` for a word `w` made of
word characters: `w` occurs in `s` delimited by word boundaries. -/
def hasWholeWord (w s : List Char) : Bool := hasWholeWordAux w none s

/-- The keywords of `QueryValidator.DANGEROUS_PATTERNS`, in source order
(each is wrapped in `\b..\b` in the source and searched case-insensitively). -/
def dangerousKeywords : List String :=
  ["DROP", "DELETE", "TRUNCATE", "ALTER", "CREATE", "GRANT", "REVOKE",
   "EXEC", "EXECUTE", "xp_cmdshell", "sp_configure"]

/-- The rejection reason built at `query_validator.py:49`.  The source
computes `pattern.replace(r'\\b', '')`, but the replace argument is the
three-character text backslash-backslash-b while the pattern holds
single backslashes, so the replacement removes nothing and the `\b`
markers stay in the message. -/
def dangerousReason (kw : String) : String :=
  "Operation not allowed: \\b" ++ kw ++ "\\b"

/-- Reason for the empty-query rejection. -/
def emptyReason : String := "Query cannot be empty"

/-- Reason for the multiple-statement rejection. -/
def multiReason : String := "Multiple statements are not allowed"

/-- Reason for the read-only INSERT/UPDATE rejection. -/
def writeOpReason : String :=
  "Write operations (INSERT, UPDATE) are not allowed in read-only mode"

/-- Reason for the xp_cmdshell rejection. -/
def shellReason : String := "Dangerous stored procedure execution is not allowed"

/-- Embedding of `QueryValidator.validate_query`
(`src/database/query_validator.py:22-56`).  The validator is constructed
with `allow_write`; the result is the returned pair
`(is_valid, error_message)`. -/
def validate_query (allow_write : Bool) (query : String) : Bool × Option String :=
  let q := query.toList
  if q.isEmpty || (pyStrip q).isEmpty then
    (false, some emptyReason)
  else if multiStatementMatch q then
    (false, some multiReason)
  else
    let normalized := pyUpper q
    if !allow_write then
      if !("SELECT".toList.isPrefixOf (pyStrip normalized)
            || "WITH".toList.isPrefixOf (pyStrip normalized)) then
        if containsSub "INSERT".toList normalized
            || containsSub "UPDATE".toList normalized then
          (false, some writeOpReason)
        else
          match dangerousKeywords.find? (fun kw =>
              hasWholeWord (pyUpper kw.toList) normalized) with
          | some kw => (false, some (dangerousReason kw))
          | none =>
            if containsSub "xp_cmdshell".toList (pyLower q) then
              (false, some shellReason)
            else (true, none)
      else
        if containsSub "xp_cmdshell".toList (pyLower q) then
          (false, some shellReason)
        else (true, none)
    else (true, none)

/-- Embedding of `QueryValidator.is_select_statement`
(`src/database/query_validator.py:58-59`). -/
def is_select_statement (query : String) : Bool :=
  "SELECT".toList.isPrefixOf (pyUpper (pyStrip query.toList))
    || "WITH".toList.isPrefixOf (pyUpper (pyStrip query.toList))

/-- Spec-side notion of "contains a semicolon not enclosed in a
single-quoted string literal": scan left to right toggling an in-quote
flag at every single quote; a bare semicolon seen while the flag is off
is an unquoted separator.  `inQ` is the state entering the scan. -/
def hasUnquotedSemicolonAux : Bool → List Char → Bool
  | _, [] => false
  | inQ, c :: rest =>
      if c = squote then hasUnquotedSemicolonAux (!inQ) rest
      else (c = ';' && !inQ) || hasUnquotedSemicolonAux inQ rest

/-- Spec-side predicate: the text contains a semicolon outside of any
single-quoted region. -/
def hasUnquotedSemicolon (s : List Char) : Bool := hasUnquotedSemicolonAux false s

/-- Python `s.split(sep)` for a one-character separator: splits at every
occurrence, keeping empty segments. -/
def splitOnChar (sep : Char) : List Char → List (List Char)
  | [] => [[]]
  | c :: rest =>
      match splitOnChar sep rest with
      | [] => [[]]
      | h :: t => if c = sep then [] :: h :: t else (c :: h) :: t

/-- Is the character one of the bracket delimiters `[` or `]`. -/
def isBracketChar (c : Char) : Bool := c = '[' || c = ']'

/-- Python `part.strip(BRACKETS)` where the strip set is the two bracket
characters: removes every leading and every trailing `[` or `]`. -/
def pyStripBrackets (s : List Char) : List Char :=
  (((s.dropWhile isBracketChar).reverse).dropWhile isBracketChar).reverse

/-- Embedding of the per-segment check in `_is_valid_identifier`
(`src/tools/advanced.py:290-296`). -/
def validIdentifierPart (part : List Char) : Bool :=
  let p := pyStripBrackets part
  !p.isEmpty && p.all (fun c => c.isAlphanum || c = '_')

/-- Embedding of `_is_valid_identifier` (`src/tools/advanced.py:275-298`). -/
def is_valid_identifier (name : String) : Bool :=
  let s := name.toList
  if s.isEmpty || s.length > 256 then false
  else
    let parts := splitOnChar '.' s
    if parts.length > 2 then false
    else parts.all validIdentifierPart

/-- Spec-side segment treatment: strip a single pair of surrounding
bracket delimiters (only when the segment both starts with `[` and ends
with `]`), nothing else. -/
def stripOnePair (s : List Char) : List Char :=
  if 2 ≤ s.length && s.head? == some '[' && s.getLast? == some ']' then
    (s.drop 1).dropLast
  else s

/-- Spec-side identifier validator, following the claim's words: length
at most 256, at most one dot, and every dot-separated segment, after
stripping a single pair of surrounding brackets, nonempty and made of
alphanumerics or underscore. -/
def specValidIdentifier (name : String) : Bool :=
  let s := name.toList
  s.length ≤ 256 && s.count '.' ≤ 1 &&
    (splitOnChar '.' s).all (fun part =>
      let p := stripOnePair part
      !p.isEmpty && p.all (fun c => c.isAlphanum || c = '_'))

/-!
## Connection pool (`src/database/connection.py`, `ConnectionPool`)

Connections are identified by `Nat` handles.  The pool state carries the
idle queue (front of the list is the next connection handed out by
`Queue.get`) and `_connection_count`; the count is a Python integer,
modelled as `Int`.  One call of the `get_connection` context manager is
modelled as a function of the pool state, the outcome of
`_is_connection_valid` for each handle, the handle a fresh
`pyodbc.connect` would produce (connection creation is assumed to
succeed), and whether the caller's `with` body raises.  `close()` on a
handle is modelled as succeeding (the source wraps it in
`try/except pass`).
-/

/-- Pool state: idle queue plus `_connection_count`. -/
structure PoolState where
  queue : List Nat
  count : Int
deriving DecidableEq

/-- Result of one `ConnectionPool.get_connection` call: final pool
state, the handle loaned to the caller (`none` when the call blocks
forever on an exhausted pool), the value of `_connection_count` at the
moment the connection was yielded, every handle closed during the call,
and whether the caller's exception propagated. -/
structure GetConnOutcome where
  final : PoolState
  loaned : Option Nat
  loanCount : Option Int
  closed : List Nat
  raised : Bool
deriving DecidableEq

/-- The part of `get_connection` from the `yield` on
(`connection.py:110-139`): on an exception in the caller's body, close
the wrapper and decrement the count (never re-queue); on normal exit,
put the wrapper back with a non-blocking put, closing it and
decrementing the count instead when the queue is full. -/
def finishLoan (maxSize : Nat) (idle : List Nat) (countAtYield : Int)
    (w : Nat) (closedSoFar : List Nat) (callerFails : Bool) : GetConnOutcome :=
  if callerFails then
    ⟨⟨idle, countAtYield - 1⟩, some w, some countAtYield, closedSoFar ++ [w], true⟩
  else if idle.length < maxSize then
    ⟨⟨idle ++ [w], countAtYield⟩, some w, some countAtYield, closedSoFar, false⟩
  else
    ⟨⟨idle, countAtYield - 1⟩, some w, some countAtYield, closedSoFar ++ [w], false⟩

/-- Embedding of `ConnectionPool.get_connection`
(`src/database/connection.py:75-139`) for a single caller.  `valid`
gives the result of `_is_connection_valid` per handle; `freshId` is the
handle created by `_create_connection` when one is needed. -/
def pool_get_connection (maxSize : Nat) (st : PoolState) (valid : Nat → Bool)
    (freshId : Nat) (callerFails : Bool) : GetConnOutcome :=
  match st.queue with
  | c :: rest =>
      if valid c then
        finishLoan maxSize rest st.count c [] callerFails
      else
        -- replace invalid connection: close it (count - 1), then
        -- _create_connection (count - 1 + 1)
        finishLoan maxSize rest st.count freshId [c] callerFails
  | [] =>
      if st.count < (maxSize : Int) then
        finishLoan maxSize [] (st.count + 1) freshId [] callerFails
      else
        -- pool exhausted: the caller blocks indefinitely on the queue
        ⟨st, none, none, [], false⟩

/-!
## Execution engine (`src/tools/query.py`, `src/tools/advanced.py`,
`DatabaseConnection.execute_query` in `src/database/connection.py`)

Row contents are opaque to the control flow being modelled, so a row is
an abstract `Nat` token.  The driver side is a `Server`: the catalog of
database names visible in `sys.databases`, the message of the driver
exception raised when `USE [db]` targets an absent database, and the
outcome of executing the main statement.  Every observable action on
the borrowed connection is recorded as an `Event` so that theorems can
speak about what was and was not done.
-/

/-- Abstract result-set row. -/
abbrev Row := Nat

/-- Driver-level outcome of `cursor.execute` for the main statement:
a result set (`cursor.description` non-null), no result set with a
`cursor.rowcount`, or a raised driver error. -/
inductive ExecOutcome where
  | resultSet (cols : List String) (rows : List Row)
  | noResultSet (rowcount : Int)
  | raises (msg : String)
deriving DecidableEq

/-- The database server / driver as seen by one engine operation. -/
structure Server where
  catalog : List String
  useFailMsg : String
  outcome : ExecOutcome
deriving DecidableEq

/-- Observable actions performed while handling one operation. -/
inductive Event where
  | validatorCall (q : String)
  | poolAcquire
  | catalogLookup (db : String)
  | execUse (db : String)
  | execStatement (q : String)
  | fetchRow
  | commit
  | cursorClose
  | poolRelease
  | poolDiscard
deriving DecidableEq

/-- The row loop of `tools/query.py:63-76`: `for row in cursor` pulls
the next row, then the body breaks if `count >= max_rows`, else appends
and increments.  Returns the collected rows and the number of rows
pulled from the cursor. -/
def streamRowsAux (maxRows : Nat) : List Row → Nat → List Row × Nat
  | [], _ => ([], 0)
  | row :: rest, count =>
      if maxRows ≤ count then ([], 1)
      else
        let r := streamRowsAux maxRows rest (count + 1)
        (row :: r.1, r.2 + 1)

/-- Row streaming with the counter starting at 0, as in the source. -/
def streamRows (avail : List Row) (maxRows : Nat) : List Row × Nat :=
  streamRowsAux maxRows avail 0

/-- Result dictionary of `tools/query.py`'s `execute_query`; absent
keys are `none` (`execution_time` is wall-clock and not modelled). -/
structure RunQueryResult where
  success : Bool
  error : Option String
  rows : Option (List Row)
  columns : Option (List String)
  row_count : Option Nat
  rows_affected : Option Int
deriving DecidableEq

/-- Embedding of `execute_query` in `src/tools/query.py:15-100`.
Control flow: validate; acquire a connection; if a target database was
given, execute `USE [database]` directly (raising when the database is
absent — there is no catalog lookup in this function); execute the
statement; if it produced a result set, stream rows through the capped
loop; otherwise return an empty success result.  Any exception is
caught and converted to `{error, success:false}`; an exception inside
the `with` block makes the pool discard the connection. -/
def execute_query (allowWrite : Bool) (srv : Server) (query : String)
    (database : Option String) (maxRows : Nat) : RunQueryResult × List Event :=
  let v := validate_query allowWrite query
  if v.1 = false then
    (⟨false, v.2, none, none, none, none⟩, [Event.validatorCall query])
  else
    let ev0 := [Event.validatorCall query, Event.poolAcquire]
    let runStmt : List Event → RunQueryResult × List Event := fun ev =>
      match srv.outcome with
      | ExecOutcome.raises msg =>
          (⟨false, some msg, none, none, none, none⟩,
            ev ++ [Event.execStatement query, Event.poolDiscard])
      | ExecOutcome.resultSet cols rows =>
          let s := streamRows rows maxRows
          (⟨true, none, some s.1, some cols, some s.1.length, none⟩,
            ev ++ Event.execStatement query :: List.replicate s.2 Event.fetchRow
              ++ [Event.poolRelease])
      | ExecOutcome.noResultSet _ =>
          -- `tools/query.py:87-93`: plain success, no commit, no
          -- rows-affected key
          (⟨true, none, some [], none, some 0, none⟩,
            ev ++ [Event.execStatement query, Event.poolRelease])
    match database with
    | some db =>
        if db ∈ srv.catalog then
          runStmt (ev0 ++ [Event.execUse db])
        else
          (⟨false, some srv.useFailMsg, none, none, none, none⟩,
            ev0 ++ [Event.execUse db, Event.poolDiscard])
    | none => runStmt ev0

/-- One element of the list returned by
`DatabaseConnection.execute_query`: a data row, or the
`{"rows_affected": n}` dictionary produced for statements without a
result set. -/
inductive DbRowOut where
  | dataRow (r : Row)
  | affected (n : Int)
deriving DecidableEq

/-- Embedding of `DatabaseConnection.execute_query`
(`src/database/connection.py:217-247`): fetch the whole result set when
there is one; otherwise commit and return `[{"rows_affected": ...}]`;
a driver error is re-raised to the caller; the cursor is closed in a
`finally` on every path. -/
def dbconn_execute_query (srv : Server) (query : String) :
    Except String (List DbRowOut) × List Event :=
  match srv.outcome with
  | ExecOutcome.raises msg =>
      (Except.error msg,
        [Event.poolAcquire, Event.execStatement query, Event.cursorClose,
         Event.poolDiscard])
  | ExecOutcome.resultSet _ rows =>
      (Except.ok (rows.map DbRowOut.dataRow),
        Event.poolAcquire :: Event.execStatement query
          :: List.replicate rows.length Event.fetchRow
          ++ [Event.cursorClose, Event.poolRelease])
  | ExecOutcome.noResultSet rc =>
      (Except.ok [DbRowOut.affected rc],
        [Event.poolAcquire, Event.execStatement query, Event.commit,
         Event.cursorClose, Event.poolRelease])

/-- Result dictionary of `execute_write` in `src/tools/advanced.py`;
absent keys are `none`. -/
structure RunWriteResult where
  success : Bool
  error : Option String
  validation : Option String
  dry_run : Option Bool
  message : Option String
  statement : Option String
  rows_affected : Option Int
  rollback : Option Bool
deriving DecidableEq

/-- The disabled-feature message of `advanced.py:186`. -/
def writeDisabledMsg : String :=
  "Write operations are disabled. Set MSSQL_ALLOW_WRITE_OPERATIONS=true to enable."

/-- Statement truncation used in `execute_write` results
(`statement[:200] + "..."` when longer than 200). -/
def truncStatement (s : String) : String :=
  if s.toList.length > 200 then ⟨s.toList.take 200⟩ ++ "..." else s

/-- `cursor.rowcount` after `cursor.execute(statement)`: the driver
reports the affected-row count for statements without a result set and
`-1` for row-returning statements. -/
def rowcountOf : ExecOutcome → Int
  | ExecOutcome.noResultSet rc => rc
  | _ => -1

/-- Embedding of `execute_write` (`src/tools/advanced.py:157-272`).
Order of checks: global write-enable flag (before anything else — no
validator call, no pool access); validator with `allow_write=True`;
leading-keyword DML check; dry-run early return; then acquire a
connection, look the target database up in `sys.databases` and return a
structured not-found result when absent, else `USE` it, execute, read
`cursor.rowcount`, commit.  Exceptions become
`{error, success:false, rollback:true}`. -/
def execute_write (allowWriteOps : Bool) (srv : Server) (statement : String)
    (database : Option String) (dryRun : Bool) : RunWriteResult × List Event :=
  if allowWriteOps = false then
    (⟨false, some writeDisabledMsg, none, none, none, none, none, none⟩, [])
  else
    let v := validate_query true statement
    if v.1 = false then
      (⟨false, v.2, some "failed", none, none, none, none, none⟩,
        [Event.validatorCall statement])
    else
      let normalized := pyStrip (pyUpper statement.toList)
      if !("INSERT".toList.isPrefixOf normalized
            || "UPDATE".toList.isPrefixOf normalized
            || "DELETE".toList.isPrefixOf normalized) then
        (⟨false, some "Only INSERT, UPDATE, DELETE statements are allowed",
           some "failed", none, none, none, none, none⟩,
          [Event.validatorCall statement])
      else if dryRun then
        (⟨true, none, some "passed", some true,
           some "Statement is valid and would execute successfully",
           some statement, none, none⟩,
          [Event.validatorCall statement])
      else
        let ev0 := [Event.validatorCall statement, Event.poolAcquire]
        let runStmt : List Event → RunWriteResult × List Event := fun ev =>
          match srv.outcome with
          | ExecOutcome.raises msg =>
              (⟨false, some msg, none, none, none,
                 some (truncStatement statement), none, some true⟩,
                ev ++ [Event.execStatement statement, Event.poolDiscard])
          | o =>
              (⟨true, none, none, none, none,
                 some (truncStatement statement), some (rowcountOf o), none⟩,
                ev ++ [Event.execStatement statement, Event.commit,
                       Event.poolRelease])
        match database with
        | some db =>
            if db ∈ srv.catalog then
              runStmt (ev0 ++ [Event.catalogLookup db, Event.execUse db])
            else
              -- structured not-found result; the early `return` exits
              -- the `with` block normally, so the connection is released
              (⟨false, some ("Database not found: " ++ db), none, none, none,
                 none, none, none⟩,
                ev0 ++ [Event.catalogLookup db, Event.poolRelease])
        | none => runStmt ev0

/-!
## Helper lemmas
-/

theorem mem_dropWhile_of_mem {p : Char → Bool} {c : Char} {l : List Char}
    (hc : c ∈ l) (hp : p c = false) : c ∈ l.dropWhile p := by
  induction l with
  | nil => cases hc
  | cons a rest ih =>
      rw [List.dropWhile_cons]
      by_cases ha : p a = true
      · rw [if_pos ha]
        rcases List.mem_cons.mp hc with rfl | h
        · rw [ha] at hp; cases hp
        · exact ih h
      · rw [if_neg ha]
        exact hc

theorem mem_pyStrip {c : Char} {q : List Char} (hc : c ∈ q)
    (hs : pyIsSpace c = false) : c ∈ pyStrip q := by
  unfold pyStrip
  rw [List.mem_reverse]
  exact mem_dropWhile_of_mem (List.mem_reverse.mpr (mem_dropWhile_of_mem hc hs)) hs

theorem semicolon_mem_of_multi {q : List Char}
    (h : multiStatementMatch q = true) : ';' ∈ q := by
  induction q with
  | nil => exact absurd h (by decide)
  | cons c rest ih =>
      rw [multiStatementMatch, Bool.or_eq_true] at h
      rcases h with h | h
      · rw [Bool.and_eq_true, decide_eq_true_eq] at h
        rw [h.1]; exact List.mem_cons_self _ _
      · exact List.mem_cons_of_mem _ (ih h)

theorem pyStrip_not_isEmpty_of_multi {q : List Char}
    (h : multiStatementMatch q = true) : (pyStrip q).isEmpty = false := by
  have hm : ';' ∈ pyStrip q := mem_pyStrip (semicolon_mem_of_multi h) (by decide)
  cases hq : pyStrip q with
  | nil => rw [hq] at hm; cases hm
  | cons a l => rfl

theorem parity_flip (n : Nat) : (!((n + 1) % 2 == 1)) = (n % 2 == 1) := by
  rcases Nat.mod_two_eq_zero_or_one n with h | h
  · have h2 : (n + 1) % 2 = 1 := by omega
    rw [h, h2]; rfl
  · have h2 : (n + 1) % 2 = 0 := by omega
    rw [h, h2]; rfl

theorem parity_not (n : Nat) : (!(n % 2 == 1)) = (n % 2 == 0) := by
  rcases Nat.mod_two_eq_zero_or_one n with h | h
  · rw [h]; rfl
  · rw [h]; rfl

/-- The lookahead regex flags a semicolon iff an even number of quotes
follows it; the quote-tracking scan marks one as unquoted iff an even
number of quotes precedes it.  The two coincide up to the parity of the
total quote count, which fixes the scan state the regex emulates. -/
theorem multiStatementMatch_eq_scan (q : List Char) :
    multiStatementMatch q =
      hasUnquotedSemicolonAux (q.count squote % 2 == 1) q := by
  induction q with
  | nil => rfl
  | cons c rest ih =>
      by_cases hc : c = squote
      · subst hc
        rw [multiStatementMatch, hasUnquotedSemicolonAux]
        rw [if_pos rfl]
        have h1 : (decide (squote = ';') && (rest.count squote % 2 == 0)) = false := by
          rw [show decide (squote = ';') = false by decide, Bool.false_and]
        rw [h1, Bool.false_or, List.count_cons_self, parity_flip]
        exact ih
      · rw [multiStatementMatch, hasUnquotedSemicolonAux]
        rw [if_neg hc, List.count_cons_of_ne (fun h => hc h.symm)]
        rw [← ih, parity_not]

theorem multi_eq_unquoted_of_even {q : List Char}
    (h : q.count squote % 2 = 0) :
    multiStatementMatch q = hasUnquotedSemicolon q := by
  rw [multiStatementMatch_eq_scan, hasUnquotedSemicolon, h]
  rfl

/-- Closed form of the row-streaming loop: collected rows and number of
cursor reads, for an arbitrary starting counter. -/
theorem streamRowsAux_eq (maxRows : Nat) (avail : List Row) :
    ∀ count, streamRowsAux maxRows avail count =
      (avail.take (maxRows - count), min avail.length (maxRows - count + 1)) := by
  induction avail with
  | nil =>
      intro count
      rw [streamRowsAux, List.take_nil, List.length_nil, Nat.zero_min]
  | cons r rest ih =>
      intro count
      rw [streamRowsAux]
      by_cases h : maxRows ≤ count
      · rw [if_pos h]
        have h0 : maxRows - count = 0 := by omega
        rw [h0]
        have h1 : min (r :: rest).length 1 = 1 := by
          rw [List.length_cons]; omega
        rw [h1, List.take_zero]
      · rw [if_neg h, ih (count + 1)]
        have h1 : maxRows - count = (maxRows - (count + 1)) + 1 := by omega
        rw [h1, List.take_succ_cons, List.length_cons]
        have h2 : min (rest.length + 1) (maxRows - (count + 1) + 1 + 1) =
            min rest.length (maxRows - (count + 1) + 1) + 1 := by omega
        rw [h2]

theorem streamRows_eq (avail : List Row) (n : Nat) :
    streamRows avail n = (avail.take n, min avail.length (n + 1)) := by
  rw [streamRows, streamRowsAux_eq, Nat.sub_zero]

/-- `splitOnChar` produces one more segment than there are separators. -/
theorem splitOnChar_length (sep : Char) (s : List Char) :
    (splitOnChar sep s).length = s.count sep + 1 := by
  induction s with
  | nil => rfl
  | cons c rest ih =>
      rw [splitOnChar]
      cases hr : splitOnChar sep rest with
      | nil => rw [hr] at ih; exact absurd ih (by simp)
      | cons h t =>
          rw [hr] at ih
          dsimp only
          by_cases hc : c = sep
          · rw [if_pos hc, hc, List.count_cons_self]
            rw [List.length_cons] at ih ⊢
            rw [List.length_cons, ih]
          · rw [if_neg hc, List.count_cons_of_ne (fun h2 => hc h2.symm)]
            rw [List.length_cons] at ih ⊢
            exact ih

theorem dangerousReason_ne_multi {kw : String} (h : kw ∈ dangerousKeywords) :
    dangerousReason kw ≠ multiReason := by
  simp only [dangerousKeywords, List.mem_cons, List.not_mem_nil, or_false] at h
  rcases h with rfl|rfl|rfl|rfl|rfl|rfl|rfl|rfl|rfl|rfl|rfl <;> decide

theorem dangerousReason_ne_writeOp {kw : String} (h : kw ∈ dangerousKeywords) :
    dangerousReason kw ≠ writeOpReason := by
  simp only [dangerousKeywords, List.mem_cons, List.not_mem_nil, or_false] at h
  rcases h with rfl|rfl|rfl|rfl|rfl|rfl|rfl|rfl|rfl|rfl|rfl <;> decide

theorem multi_false_of_empty {query : String}
    (h0 : (query.toList.isEmpty || (pyStrip query.toList).isEmpty) = true) :
    multiStatementMatch query.toList = false := by
  cases hmm : multiStatementMatch query.toList
  · rfl
  · exfalso
    rcases Bool.or_eq_true_iff.mp h0 with h | h
    · have hsem := semicolon_mem_of_multi hmm
      rw [List.isEmpty_iff] at h
      rw [h] at hsem
      cases hsem
    · rw [pyStrip_not_isEmpty_of_multi hmm] at h
      cases h

/-- The validator reports "Multiple statements are not allowed" exactly
when the separator regex matches, in both modes: the check runs before
every mode-dependent rule, and no other branch produces this reason. -/
theorem validate_query_multi_iff (aw : Bool) (query : String) :
    ((validate_query aw query).2 = some multiReason) ↔
      multiStatementMatch query.toList = true := by
  simp only [validate_query]
  by_cases h0 : (query.toList.isEmpty || (pyStrip query.toList).isEmpty) = true
  · rw [if_pos h0, multi_false_of_empty h0]
    simp only [Option.some.injEq]
    constructor
    · intro h; exact absurd h (by decide)
    · intro h; exact absurd h (by decide)
  · rw [if_neg h0]
    by_cases hm : multiStatementMatch query.toList = true
    · rw [if_pos hm, hm]
      simp only [iff_true]
    · rw [if_neg hm]
      rw [Bool.not_eq_true] at hm
      rw [hm]
      constructor
      · intro h
        exfalso
        cases aw with
        | true => simp only [Bool.not_true, if_neg (by decide : ¬ (false = true))] at h
                  cases h
        | false =>
            simp only [Bool.not_false, if_pos rfl] at h
            by_cases hsel : (!("SELECT".toList.isPrefixOf
                  (pyStrip (pyUpper query.toList))
                || "WITH".toList.isPrefixOf
                  (pyStrip (pyUpper query.toList)))) = true
            · rw [if_pos hsel] at h
              by_cases hins : (containsSub "INSERT".toList (pyUpper query.toList)
                  || containsSub "UPDATE".toList (pyUpper query.toList)) = true
              · rw [if_pos hins] at h
                exact absurd (Option.some.inj h) (by decide)
              · rw [if_neg hins] at h
                cases hf : dangerousKeywords.find? (fun kw =>
                    hasWholeWord (pyUpper kw.toList) (pyUpper query.toList)) with
                | some kw =>
                    rw [hf] at h
                    exact absurd (Option.some.inj h)
                      (dangerousReason_ne_multi (List.mem_of_find?_eq_some hf))
                | none =>
                    rw [hf] at h
                    by_cases hxp : containsSub "xp_cmdshell".toList
                        (pyLower query.toList) = true
                    · rw [if_pos hxp] at h
                      exact absurd (Option.some.inj h) (by decide)
                    · rw [if_neg hxp] at h
                      cases h
            · rw [if_neg hsel] at h
              by_cases hxp : containsSub "xp_cmdshell".toList
                  (pyLower query.toList) = true
              · rw [if_pos hxp] at h
                exact absurd (Option.some.inj h) (by decide)
              · rw [if_neg hxp] at h
                cases h
      · intro h; cases h

theorem toList_not_isEmpty_of_strip {q : List Char}
    (h : (pyStrip q).isEmpty = false) : q.isEmpty = false := by
  cases hq : q with
  | nil => rw [hq] at h; exact absurd h (by decide)
  | cons a l => rfl

/-!
## Claims about the query validator
-/

/-- C5 (amended): the validator rejects with reason "Multiple statements
are not allowed" exactly when some semicolon is followed by an even
number of single-quote characters; for statements whose single quotes
are balanced (an even total), this is exactly "the statement contains a
semicolon not enclosed in a single-quoted string literal", and the probe
`SELECT * FROM T; DROP TABLE T;` is rejected with this reason in both
read-only and write-enabled modes. -/
theorem C5_separator_reject :
    (∀ (aw : Bool) (query : String), query.toList.count squote % 2 = 0 →
        (((validate_query aw query).2 = some multiReason) ↔
          hasUnquotedSemicolon query.toList = true)) ∧
    (validate_query false "SELECT * FROM T; DROP TABLE T;").2 = some multiReason ∧
    (validate_query true "SELECT * FROM T; DROP TABLE T;").2 = some multiReason := by
  refine ⟨?_, by decide, by decide⟩
  intro aw query h
  rw [validate_query_multi_iff, multi_eq_unquoted_of_even h]

theorem C5_separator_reject_witness :
    ("SELECT 1; SELECT 2".toList.count squote % 2 = 0) ∧
    (validate_query false "SELECT 1; SELECT 2").2 = some multiReason :=
  ⟨by decide,
    (C5_separator_reject.1 false "SELECT 1; SELECT 2" (by decide)).mpr (by decide)⟩

/-- C5 counterexample: `SELECT 1;'` contains a semicolon that no
single-quoted literal encloses (the lone quote comes after it), yet the
validator accepts the statement in both modes, because the parity
lookahead sees one (odd) quote after the semicolon. -/
theorem C5_counterexample :
    hasUnquotedSemicolon "SELECT 1;\x27".toList = true ∧
    validate_query false "SELECT 1;\x27" = (true, none) ∧
    validate_query true "SELECT 1;\x27" = (true, none) :=
  ⟨by decide, by decide, by decide⟩

/-- C10 (amended): with `allow_write = true` the validator accepts every
non-empty statement in which no semicolon is followed by an even number
of single-quote characters (for balanced quotes: no unquoted
semicolon); every content check is skipped, so `DROP TABLE T` and
`EXEC xp_cmdshell 'dir'` both validate as ok. -/
theorem C10_writemode_accepts :
    (∀ query : String, (pyStrip query.toList).isEmpty = false →
        multiStatementMatch query.toList = false →
        validate_query true query = (true, none)) ∧
    validate_query true "DROP TABLE T" = (true, none) ∧
    validate_query true "EXEC xp_cmdshell \x27dir\x27" = (true, none) := by
  refine ⟨?_, by decide, by decide⟩
  intro query h1 h2
  have h0 : (query.toList.isEmpty || (pyStrip query.toList).isEmpty) = false := by
    rw [toList_not_isEmpty_of_strip h1, h1]; decide
  simp only [validate_query]
  rw [if_neg (by rw [h0]; exact (by decide : ¬ (false = true)))]
  rw [if_neg (by rw [h2]; exact (by decide : ¬ (false = true)))]
  rw [if_neg (by decide : ¬ ((!true : Bool) = true))]

theorem C10_writemode_accepts_witness :
    (pyStrip "DELETE FROM T".toList).isEmpty = false ∧
    multiStatementMatch "DELETE FROM T".toList = false ∧
    validate_query true "DELETE FROM T" = (true, none) :=
  ⟨by decide, by decide, C10_writemode_accepts.1 "DELETE FROM T" (by decide) (by decide)⟩

/-- C10 counterexample: `'a;b' SELECT '` contains no semicolon outside a
single-quoted literal (its only semicolon sits inside the closed literal
`'a;b'`), yet write-enabled validation rejects it as multiple
statements, because an even number of quotes follows that semicolon. -/
theorem C10_counterexample :
    hasUnquotedSemicolon "\x27a;b\x27 SELECT \x27".toList = false ∧
    validate_query true "\x27a;b\x27 SELECT \x27" = (false, some multiReason) :=
  ⟨by decide, by decide⟩

/-- C6 (amended): in read-only mode, for a non-empty statement that the
separator regex does not flag and that does not begin (after trimming)
with SELECT or WITH, the validator rejects with the
write-operations-not-allowed reason exactly when the upper-cased text
contains `INSERT` or `UPDATE` as a substring — plain containment, with
no word-boundary requirement. -/
theorem C6_readonly_insert_update (query : String)
    (h1 : (pyStrip query.toList).isEmpty = false)
    (h2 : multiStatementMatch query.toList = false)
    (h3 : "SELECT".toList.isPrefixOf (pyStrip (pyUpper query.toList)) = false)
    (h4 : "WITH".toList.isPrefixOf (pyStrip (pyUpper query.toList)) = false) :
    ((validate_query false query).2 = some writeOpReason) ↔
      (containsSub "INSERT".toList (pyUpper query.toList)
        || containsSub "UPDATE".toList (pyUpper query.toList)) = true := by
  have h0 : (query.toList.isEmpty || (pyStrip query.toList).isEmpty) = false := by
    rw [toList_not_isEmpty_of_strip h1, h1]; decide
  simp only [validate_query]
  rw [if_neg (by rw [h0]; exact (by decide : ¬ (false = true)))]
  rw [if_neg (by rw [h2]; exact (by decide : ¬ (false = true)))]
  rw [if_pos (by decide : ((!false : Bool) = true))]
  rw [if_pos (by rw [h3, h4]; decide :
    ((!("SELECT".toList.isPrefixOf (pyStrip (pyUpper query.toList))
        || "WITH".toList.isPrefixOf (pyStrip (pyUpper query.toList)))) = true))]
  by_cases hin : (containsSub "INSERT".toList (pyUpper query.toList)
      || containsSub "UPDATE".toList (pyUpper query.toList)) = true
  · rw [if_pos hin, hin]
    simp only [iff_true]
  · rw [if_neg hin]
    rw [Bool.not_eq_true] at hin
    rw [hin]
    constructor
    · intro h
      exfalso
      cases hf : dangerousKeywords.find? (fun kw =>
          hasWholeWord (pyUpper kw.toList) (pyUpper query.toList)) with
      | some kw =>
          rw [hf] at h
          exact absurd (Option.some.inj h)
            (dangerousReason_ne_writeOp (List.mem_of_find?_eq_some hf))
      | none =>
          rw [hf] at h
          by_cases hxp : containsSub "xp_cmdshell".toList
              (pyLower query.toList) = true
          · rw [if_pos hxp] at h
            exact absurd (Option.some.inj h) (by decide)
          · rw [if_neg hxp] at h
            cases h
    · intro h; cases h

theorem C6_readonly_insert_update_witness :
    (validate_query false "PRINT \x27INSERT\x27").2 = some writeOpReason :=
  (C6_readonly_insert_update "PRINT \x27INSERT\x27"
    (by decide) (by decide) (by decide) (by decide)).mpr (by decide)

/-- C6 counterexample: `PRINT 'UPDATED'` contains neither INSERT nor
UPDATE as a whole word (UPDATE occurs only inside the longer word
UPDATED), does not begin with SELECT or WITH, and yet the validator
rejects it with the write-operations reason. -/
theorem C6_counterexample :
    (validate_query false "PRINT \x27UPDATED\x27").2 = some writeOpReason ∧
    hasWholeWord "UPDATE".toList (pyUpper "PRINT \x27UPDATED\x27".toList) = false ∧
    hasWholeWord "INSERT".toList (pyUpper "PRINT \x27UPDATED\x27".toList) = false ∧
    "SELECT".toList.isPrefixOf (pyStrip (pyUpper "PRINT \x27UPDATED\x27".toList)) = false ∧
    "WITH".toList.isPrefixOf (pyStrip (pyUpper "PRINT \x27UPDATED\x27".toList)) = false :=
  ⟨by decide, by decide, by decide, by decide, by decide⟩

/-!
## Claims about the identifier validator
-/

theorem validIdentifierPart_iff (part : List Char) :
    validIdentifierPart part = true ↔
      (pyStripBrackets part ≠ [] ∧
        ∀ c ∈ pyStripBrackets part, (c.isAlphanum || c = '_') = true) := by
  simp [validIdentifierPart, List.isEmpty_iff, List.all_eq_true]

/-- C7 (amended): `_is_valid_identifier` accepts a string iff its length
is at most 256, it has at most one dot, and every dot-separated
segment, after removal of ALL leading and trailing `[` and `]`
characters (not just one surrounding pair — the source uses
`part.strip('[]')`), is non-empty and made of alphanumerics or
underscore; `dbo.Customers` and `[dbo].[Customers]` are accepted,
`dbo.Customers.Extra` and `Customers; DROP` rejected. -/
theorem C7_identifier :
    (∀ name : String, is_valid_identifier name = true ↔
        (name.toList.length ≤ 256 ∧ name.toList.count '.' ≤ 1 ∧
          ∀ part ∈ splitOnChar '.' name.toList,
            pyStripBrackets part ≠ [] ∧
              ∀ c ∈ pyStripBrackets part, (c.isAlphanum || c = '_') = true)) ∧
    is_valid_identifier "dbo.Customers" = true ∧
    is_valid_identifier "[dbo].[Customers]" = true ∧
    is_valid_identifier "dbo.Customers.Extra" = false ∧
    is_valid_identifier "Customers; DROP" = false := by
  refine ⟨?_, by decide, by decide, by decide, by decide⟩
  intro name
  constructor
  · intro h
    simp only [is_valid_identifier] at h
    by_cases h0 : (name.toList.isEmpty || decide (name.toList.length > 256)) = true
    · rw [if_pos h0] at h; cases h
    · rw [if_neg h0] at h
      by_cases h1 : (splitOnChar '.' name.toList).length > 2
      · rw [if_pos h1] at h; cases h
      · rw [if_neg h1] at h
        have h0' := Bool.or_eq_false_iff.mp (Bool.not_eq_true _ ▸ h0)
        have hlen : name.toList.length ≤ 256 := by
          have := of_decide_eq_false h0'.2
          omega
        have hcount : name.toList.count '.' ≤ 1 := by
          have := splitOnChar_length '.' name.toList
          omega
        refine ⟨hlen, hcount, ?_⟩
        intro part hp
        exact (validIdentifierPart_iff part).mp (List.all_eq_true.mp h part hp)
  · rintro ⟨hlen, hcount, hparts⟩
    have hne : name.toList.isEmpty = false := by
      cases hq : name.toList with
      | nil =>
          exfalso
          have hmem : ([] : List Char) ∈ splitOnChar '.' name.toList := by
            rw [hq]; exact List.mem_singleton.mpr rfl
          exact (hparts [] hmem).1 rfl
      | cons a l => rfl
    simp only [is_valid_identifier]
    rw [if_neg (by
      rw [hne, decide_eq_false (by omega : ¬ name.toList.length > 256)]
      decide)]
    rw [if_neg (by
      have := splitOnChar_length '.' name.toList
      omega : ¬ (splitOnChar '.' name.toList).length > 2)]
    rw [List.all_eq_true]
    intro part hp
    exact (validIdentifierPart_iff part).mpr (hparts part hp)

theorem C7_identifier_witness :
    is_valid_identifier "sales.Orders_2024" = true :=
  (C7_identifier.1 "sales.Orders_2024").mpr (by decide)

/-- C7 counterexample: `[dbo` has no surrounding bracket pair, so under
the claim's "strip a single pair" reading its only segment still starts
with `[` and must be rejected; the source's `strip('[]')` removes the
lone bracket and the validator accepts the string. -/
theorem C7_counterexample :
    is_valid_identifier "[dbo" = true ∧ specValidIdentifier "[dbo" = false :=
  ⟨by decide, by decide⟩

/-!
## Claims about the connection pool and the write gate
-/

/-- C2: whenever `get_connection` has loaned a connection and the
caller's use of it raises, the loaned connection is destroyed: it is
closed exactly once, it is absent from the idle queue in the final
state, and the pool's connection count ends exactly one below its value
at the moment of the loan; the exception propagates.  Hypotheses: the
idle queue holds distinct handles and a freshly created handle is new. -/
theorem C2_pool_exception_destroys (maxSize : Nat) (st : PoolState)
    (valid : Nat → Bool) (freshId w : Nat)
    (hnd : st.queue.Nodup) (hf : freshId ∉ st.queue)
    (hw : (pool_get_connection maxSize st valid freshId true).loaned = some w) :
    (pool_get_connection maxSize st valid freshId true).raised = true ∧
    (pool_get_connection maxSize st valid freshId true).closed.count w = 1 ∧
    (pool_get_connection maxSize st valid freshId true).final.queue.count w = 0 ∧
    ∃ k, (pool_get_connection maxSize st valid freshId true).loanCount = some k ∧
      (pool_get_connection maxSize st valid freshId true).final.count = k - 1 := by
  obtain ⟨q, cnt⟩ := st
  rw [pool_get_connection] at hw ⊢
  dsimp only at hw hnd hf ⊢
  cases q with
  | nil =>
      dsimp only at hw ⊢
      by_cases hc : cnt < (maxSize : Int)
      · rw [if_pos hc] at hw ⊢
        rw [finishLoan, if_pos rfl] at hw ⊢
        dsimp only at hw ⊢
        obtain rfl : freshId = w := Option.some.inj hw
        exact ⟨rfl, by simp, by simp, ⟨cnt + 1, rfl, rfl⟩⟩
      · rw [if_neg hc] at hw
        dsimp only at hw
        cases hw
  | cons c rest =>
      have hcr : c ∉ rest := (List.nodup_cons.mp hnd).1
      have hfc : freshId ≠ c := fun e => hf (e ▸ List.mem_cons_self c rest)
      have hfr : freshId ∉ rest := fun m => hf (List.mem_cons_of_mem _ m)
      dsimp only at hw ⊢
      by_cases hv : valid c = true
      · rw [if_pos hv] at hw ⊢
        rw [finishLoan, if_pos rfl] at hw ⊢
        dsimp only at hw ⊢
        obtain rfl : c = w := Option.some.inj hw
        exact ⟨rfl, by simp, by simp [List.count_eq_zero.mpr hcr],
          ⟨cnt, rfl, rfl⟩⟩
      · rw [if_neg hv] at hw ⊢
        rw [finishLoan, if_pos rfl] at hw ⊢
        dsimp only at hw ⊢
        obtain rfl : freshId = w := Option.some.inj hw
        refine ⟨rfl, ?_, by simp [List.count_eq_zero.mpr hfr],
          ⟨cnt, rfl, rfl⟩⟩
        simp [List.count_cons, hfc.symm]

theorem C2_pool_exception_destroys_witness :
    ([7] : List Nat).Nodup ∧ (99 : Nat) ∉ ([7] : List Nat) ∧
    ((pool_get_connection 10 ⟨[7], 3⟩ (fun _ => true) 99 true).loaned = some 7) ∧
    ((pool_get_connection 10 ⟨[7], 3⟩ (fun _ => true) 99 true).raised = true ∧
     (pool_get_connection 10 ⟨[7], 3⟩ (fun _ => true) 99 true).closed.count 7 = 1 ∧
     (pool_get_connection 10 ⟨[7], 3⟩ (fun _ => true) 99 true).final.queue.count 7 = 0 ∧
     ∃ k, (pool_get_connection 10 ⟨[7], 3⟩ (fun _ => true) 99 true).loanCount = some k ∧
       (pool_get_connection 10 ⟨[7], 3⟩ (fun _ => true) 99 true).final.count = k - 1) :=
  ⟨by decide, by decide, rfl,
    C2_pool_exception_destroys 10 ⟨[7], 3⟩ (fun _ => true) 99 7
      (by decide) (by decide) rfl⟩

/-- C8: with the global write-enable flag off, `execute_write` returns
the structured disabled result with `success:false` and an explanatory
error, for every statement, target database and dry-run setting; its
event trace is empty, so neither the validator nor the connection pool
is ever touched. -/
theorem C8_write_disabled (srv : Server) (stmt : String)
    (db : Option String) (dr : Bool) :
    execute_write false srv stmt db dr =
      (⟨false, some writeDisabledMsg, none, none, none, none, none, none⟩, []) :=
  rfl

/-!
## Claims about the execution engine
-/

/-- C1 (amended): when the validated statement produces a result set
and any requested database switch succeeds, `execute_query` returns
exactly `min max_rows total` rows, but the `for row in cursor` loop
consumes `min total (max_rows + 1)` rows from the cursor: when more
rows than `max_rows` exist, exactly one row beyond the cap is fetched
(the read that drives the iteration which then breaks), and no more. -/
theorem C1_row_cap (aw : Bool) (srv : Server) (query : String)
    (db : Option String) (n : Nat) (cols : List String) (rows : List Row)
    (hv : (validate_query aw query).1 = true)
    (ho : srv.outcome = ExecOutcome.resultSet cols rows)
    (hdb : db = none ∨ ∃ d, db = some d ∧ d ∈ srv.catalog) :
    (execute_query aw srv query db n).1.success = true ∧
    (execute_query aw srv query db n).1.rows = some (rows.take n) ∧
    (execute_query aw srv query db n).1.row_count = some (min n rows.length) ∧
    (execute_query aw srv query db n).2.count Event.fetchRow =
      min rows.length (n + 1) := by
  simp only [execute_query]
  rw [if_neg (by rw [hv]; exact (by decide : ¬ (true = false)))]
  rcases hdb with rfl | ⟨d, rfl, hd⟩
  · dsimp only
    rw [ho]
    dsimp only
    rw [streamRows_eq]
    dsimp only
    refine ⟨rfl, rfl, ?_, ?_⟩
    · rw [List.length_take]
    · simp [List.count_append, List.count_cons, List.count_replicate]
  · dsimp only
    rw [if_pos hd, ho]
    dsimp only
    rw [streamRows_eq]
    dsimp only
    refine ⟨rfl, rfl, ?_, ?_⟩
    · rw [List.length_take]
    · simp [List.count_append, List.count_cons, List.count_replicate]

theorem C1_row_cap_witness :
    ((validate_query false "SELECT 1").1 = true) ∧
    ((⟨[], "e", ExecOutcome.resultSet ["c"] [0, 1, 2, 3]⟩ : Server).outcome =
      ExecOutcome.resultSet ["c"] [0, 1, 2, 3]) ∧
    ((execute_query false ⟨[], "e", ExecOutcome.resultSet ["c"] [0, 1, 2, 3]⟩
        "SELECT 1" none 2).1.success = true ∧
     (execute_query false ⟨[], "e", ExecOutcome.resultSet ["c"] [0, 1, 2, 3]⟩
        "SELECT 1" none 2).1.rows = some ([0, 1, 2, 3].take 2) ∧
     (execute_query false ⟨[], "e", ExecOutcome.resultSet ["c"] [0, 1, 2, 3]⟩
        "SELECT 1" none 2).1.row_count = some (min 2 [0, 1, 2, 3].length) ∧
     (execute_query false ⟨[], "e", ExecOutcome.resultSet ["c"] [0, 1, 2, 3]⟩
        "SELECT 1" none 2).2.count Event.fetchRow = min [0, 1, 2, 3].length (2 + 1)) :=
  ⟨by decide, rfl,
    C1_row_cap false ⟨[], "e", ExecOutcome.resultSet ["c"] [0, 1, 2, 3]⟩
      "SELECT 1" none 2 ["c"] [0, 1, 2, 3] (by decide) rfl (Or.inl rfl)⟩

/-- C1 counterexample: with a 10-row result set and `max_rows = 3`,
`execute_query` returns exactly 3 rows but reads 4 rows from the
cursor: the row beyond the cap is consumed before the loop breaks. -/
theorem C1_counterexample :
    (execute_query false
      ⟨[], "e", ExecOutcome.resultSet ["c"] [0, 1, 2, 3, 4, 5, 6, 7, 8, 9]⟩
      "SELECT 1" none 3).1.rows = some [0, 1, 2] ∧
    (execute_query false
      ⟨[], "e", ExecOutcome.resultSet ["c"] [0, 1, 2, 3, 4, 5, 6, 7, 8, 9]⟩
      "SELECT 1" none 3).2.count Event.fetchRow = 4 :=
  ⟨by decide, by decide⟩

/-- C4 (amended): for a validated statement that produces no row set
(after a successful optional database switch), `execute_query` in
`tools/query.py` returns a bare success with `rows = []` and
`row_count = 0`: it does not commit and does not report rows affected.
The commit-and-report behaviour lives in
`DatabaseConnection.execute_query`, which commits once and returns
`[{"rows_affected": n}]`. -/
theorem C4_no_result_set (aw : Bool) (srv : Server) (query : String)
    (db : Option String) (n : Nat) (rc : Int)
    (hv : (validate_query aw query).1 = true)
    (ho : srv.outcome = ExecOutcome.noResultSet rc)
    (hdb : db = none ∨ ∃ d, db = some d ∧ d ∈ srv.catalog) :
    (execute_query aw srv query db n).1 = ⟨true, none, some [], none, some 0, none⟩ ∧
    (execute_query aw srv query db n).2.count Event.commit = 0 ∧
    (dbconn_execute_query srv query).1 = Except.ok [DbRowOut.affected rc] ∧
    (dbconn_execute_query srv query).2.count Event.commit = 1 := by
  refine ⟨?_, ?_, ?_, ?_⟩ <;>
    simp only [execute_query, dbconn_execute_query] <;>
    [skip; skip; rw [ho]; rw [ho]]
  · rw [if_neg (by rw [hv]; exact (by decide : ¬ (true = false)))]
    rcases hdb with rfl | ⟨d, rfl, hd⟩
    · dsimp only; rw [ho]
    · dsimp only; rw [if_pos hd, ho]
  · rw [if_neg (by rw [hv]; exact (by decide : ¬ (true = false)))]
    rcases hdb with rfl | ⟨d, rfl, hd⟩
    · dsimp only; rw [ho]; simp [List.count_cons]
    · dsimp only; rw [if_pos hd, ho]; simp [List.count_cons]
  · simp [List.count_cons]

theorem C4_no_result_set_witness :
    ((validate_query true "UPDATE T SET X = 1").1 = true) ∧
    ((execute_query true ⟨[], "e", ExecOutcome.noResultSet 5⟩
        "UPDATE T SET X = 1" none 1000).1 =
      ⟨true, none, some [], none, some 0, none⟩ ∧
     (execute_query true ⟨[], "e", ExecOutcome.noResultSet 5⟩
        "UPDATE T SET X = 1" none 1000).2.count Event.commit = 0 ∧
     (dbconn_execute_query ⟨[], "e", ExecOutcome.noResultSet 5⟩
        "UPDATE T SET X = 1").1 = Except.ok [DbRowOut.affected 5] ∧
     (dbconn_execute_query ⟨[], "e", ExecOutcome.noResultSet 5⟩
        "UPDATE T SET X = 1").2.count Event.commit = 1) :=
  ⟨by decide,
    C4_no_result_set true ⟨[], "e", ExecOutcome.noResultSet 5⟩
      "UPDATE T SET X = 1" none 1000 5 (by decide) rfl (Or.inl rfl)⟩

/-- C4 counterexample: a validated write statement with no result set
and 5 affected rows: `execute_query` reports success with no
rows-affected key, and its event trace contains no commit. -/
theorem C4_counterexample :
    (execute_query true ⟨[], "e", ExecOutcome.noResultSet 5⟩
      "UPDATE T SET X = 1" none 1000).1.success = true ∧
    (execute_query true ⟨[], "e", ExecOutcome.noResultSet 5⟩
      "UPDATE T SET X = 1" none 1000).1.rows_affected = none ∧
    (execute_query true ⟨[], "e", ExecOutcome.noResultSet 5⟩
      "UPDATE T SET X = 1" none 1000).2.count Event.commit = 0 :=
  ⟨by decide, by decide, by decide⟩

/-- C3 (amended): `execute_query` performs no catalog verification: with
a target database absent from `sys.databases` it directly issues
`USE [database]`, whose driver error is caught and returned as
`success:false` with the driver's message (not a structured
"Database not found" result); the statement itself is never executed
and the connection is discarded.  The catalog lookup followed by a
structured "Database not found: ..." result exists in `execute_write`
(and `execute_procedure`) in `tools/advanced.py`. -/
theorem C3_db_switch :
    (∀ (aw : Bool) (srv : Server) (query d : String) (n : Nat),
        (validate_query aw query).1 = true → d ∉ srv.catalog →
        execute_query aw srv query (some d) n =
          (⟨false, some srv.useFailMsg, none, none, none, none⟩,
           [Event.validatorCall query, Event.poolAcquire, Event.execUse d,
            Event.poolDiscard])) ∧
    (∀ (srv : Server) (stmt d : String),
        (validate_query true stmt).1 = true →
        ("INSERT".toList.isPrefixOf (pyStrip (pyUpper stmt.toList))
          || "UPDATE".toList.isPrefixOf (pyStrip (pyUpper stmt.toList))
          || "DELETE".toList.isPrefixOf (pyStrip (pyUpper stmt.toList))) = true →
        d ∉ srv.catalog →
        execute_write true srv stmt (some d) false =
          (⟨false, some ("Database not found: " ++ d), none, none, none, none,
             none, none⟩,
           [Event.validatorCall stmt, Event.poolAcquire, Event.catalogLookup d,
            Event.poolRelease])) := by
  constructor
  · intro aw srv query d n hv hd
    simp only [execute_query]
    rw [if_neg (by rw [hv]; exact (by decide : ¬ (true = false)))]
    rw [if_neg hd]
    rfl
  · intro srv stmt d hv hp hd
    simp only [execute_write]
    rw [if_neg (by decide : ¬ ((true : Bool) = false))]
    rw [if_neg (by rw [hv]; exact (by decide : ¬ (true = false)))]
    rw [if_neg (by rw [hp]; exact (by decide : ¬ ((!true : Bool) = true)))]
    rw [if_neg (by decide : ¬ ((false : Bool) = true))]
    rw [if_neg hd]
    rfl

theorem C3_db_switch_witness :
    ((validate_query false "SELECT 1").1 = true) ∧
    ("X" ∉ (⟨["master"], "boom", ExecOutcome.resultSet ["c"] [0]⟩ : Server).catalog) ∧
    (execute_query false ⟨["master"], "boom", ExecOutcome.resultSet ["c"] [0]⟩
        "SELECT 1" (some "X") 5 =
      (⟨false, some "boom", none, none, none, none⟩,
       [Event.validatorCall "SELECT 1", Event.poolAcquire, Event.execUse "X",
        Event.poolDiscard])) ∧
    (execute_write true ⟨["master"], "boom", ExecOutcome.resultSet ["c"] [0]⟩
        "DELETE FROM T" (some "X") false =
      (⟨false, some ("Database not found: " ++ "X"), none, none, none, none,
         none, none⟩,
       [Event.validatorCall "DELETE FROM T", Event.poolAcquire,
        Event.catalogLookup "X", Event.poolRelease])) :=
  ⟨by decide, by decide,
    C3_db_switch.1 false ⟨["master"], "boom", ExecOutcome.resultSet ["c"] [0]⟩
      "SELECT 1" "X" 5 (by decide) (by decide),
    C3_db_switch.2 ⟨["master"], "boom", ExecOutcome.resultSet ["c"] [0]⟩
      "DELETE FROM T" "X" (by decide) (by decide) (by decide)⟩

/-- C3 counterexample: `execute_query` with target database `NoSuchDB`
absent from the catalog performs no catalog lookup, returns the
driver's `USE` failure message rather than a structured
"Database not found" result, and never executes the statement. -/
theorem C3_counterexample :
    (execute_query false
      ⟨["master"], "(42000) Could not locate entry in sysdatabases",
       ExecOutcome.resultSet ["c"] [0]⟩ "SELECT 1" (some "NoSuchDB") 10).1.success
        = false ∧
    (execute_query false
      ⟨["master"], "(42000) Could not locate entry in sysdatabases",
       ExecOutcome.resultSet ["c"] [0]⟩ "SELECT 1" (some "NoSuchDB") 10).1.error
        = some "(42000) Could not locate entry in sysdatabases" ∧
    (execute_query false
      ⟨["master"], "(42000) Could not locate entry in sysdatabases",
       ExecOutcome.resultSet ["c"] [0]⟩ "SELECT 1" (some "NoSuchDB") 10).1.error
        ≠ some "Database not found: NoSuchDB" ∧
    (execute_query false
      ⟨["master"], "(42000) Could not locate entry in sysdatabases",
       ExecOutcome.resultSet ["c"] [0]⟩ "SELECT 1" (some "NoSuchDB") 10).2.count
        (Event.catalogLookup "NoSuchDB") = 0 ∧
    (execute_query false
      ⟨["master"], "(42000) Could not locate entry in sysdatabases",
       ExecOutcome.resultSet ["c"] [0]⟩ "SELECT 1" (some "NoSuchDB") 10).2.count
        (Event.execStatement "SELECT 1") = 0 :=
  ⟨by decide, by decide, by decide, by decide, by decide⟩

/-- C9 (amended): the `execute_query` of `tools/query.py` never closes
its per-statement cursor on any path — its trace contains no
cursor-close action; the cursor-closing `finally` the spec describes
belongs to `DatabaseConnection.execute_query`, whose trace closes the
cursor exactly once on every path, success or failure. -/
theorem C9_cursor_close :
    (∀ (aw : Bool) (srv : Server) (query : String) (db : Option String) (n : Nat),
        (execute_query aw srv query db n).2.count Event.cursorClose = 0) ∧
    (∀ (srv : Server) (query : String),
        (dbconn_execute_query srv query).2.count Event.cursorClose = 1) := by
  constructor
  · intro aw srv query db n
    obtain ⟨cat, msg, outcome⟩ := srv
    simp only [execute_query]
    by_cases hv : (validate_query aw query).1 = false
    · rw [if_pos hv]
      simp
    · rw [if_neg hv]
      cases db with
      | none =>
          dsimp only
          cases outcome <;>
            simp [List.count_append, List.count_cons, List.count_replicate]
      | some d =>
          dsimp only
          by_cases hd : d ∈ cat
          · rw [if_pos hd]
            cases outcome <;>
              simp [List.count_append, List.count_cons, List.count_replicate]
          · rw [if_neg hd]
            simp
  · intro srv query
    obtain ⟨cat, msg, outcome⟩ := srv
    cases outcome <;>
      simp [dbconn_execute_query, List.count_append, List.count_cons,
        List.count_replicate]

/-- C9 counterexample: a plain successful `execute_query` run; its
event trace contains no cursor-close action. -/
theorem C9_counterexample :
    (execute_query false ⟨[], "e", ExecOutcome.resultSet ["c"] [0]⟩
      "SELECT 1" none 10).1.success = true ∧
    (execute_query false ⟨[], "e", ExecOutcome.resultSet ["c"] [0]⟩
      "SELECT 1" none 10).2.count Event.cursorClose = 0 :=
  ⟨by decide, by decide⟩

end MssqlMcp
